import Mathlib

/-
  Shallow embedding of the metrics core of the
  financial-performance-dashboard repository
  (src/src/data_processing.py: class FinancialMetricsCalculator and
  create_comparison_dataframe).

  Statements are pandas DataFrames whose rows are line items (String
  labels) and whose columns are fiscal periods.  Cell values are IEEE
  floating-point numbers; the claims under study concern only the
  distinction between ordinary numbers, signed infinities and NaN, never
  rounding, so scalars are modelled by an idealized float: an exact
  rational, a signed infinity, or NaN.
-/

namespace FinDash

/-- An idealized floating-point scalar: NaN, a signed infinity
(`inf true` is positive infinity), or an exact number. -/
inductive FVal where
  | nan : FVal
  | inf : Bool → FVal
  | num : Rat → FVal
deriving DecidableEq

/-- IEEE negation. -/
def FVal.neg : FVal → FVal
  | .nan => .nan
  | .inf s => .inf (!s)
  | .num a => .num (-a)

/-- IEEE addition (numpy semantics: NaN absorbs; opposite infinities
give NaN). -/
def FVal.add : FVal → FVal → FVal
  | .nan, _ => .nan
  | _, .nan => .nan
  | .inf s, .inf t => if s = t then .inf s else .nan
  | .inf s, .num _ => .inf s
  | .num _, .inf t => .inf t
  | .num a, .num b => .num (a + b)

/-- IEEE subtraction. -/
def FVal.sub (x y : FVal) : FVal := x.add y.neg

/-- IEEE multiplication (infinity times zero is NaN; signs combine). -/
def FVal.mul : FVal → FVal → FVal
  | .nan, _ => .nan
  | _, .nan => .nan
  | .inf s, .inf t => .inf (s == t)
  | .inf s, .num a => if a = 0 then .nan else .inf (s == decide (0 < a))
  | .num a, .inf t => if a = 0 then .nan else .inf (t == decide (0 < a))
  | .num a, .num b => .num (a * b)

/-- IEEE division, as numpy performs it on statement data: a nonzero
number divided by zero is a signed infinity, zero divided by zero is
NaN, anything involving NaN is NaN. -/
def FVal.div : FVal → FVal → FVal
  | .nan, _ => .nan
  | _, .nan => .nan
  | .inf _, .inf _ => .nan
  | .inf s, .num b => .inf (s == decide (0 ≤ b))
  | .num _, .inf _ => .num 0
  | .num a, .num b =>
      if b = 0 then (if a = 0 then .nan else .inf (decide (0 < a)))
      else .num (a / b)

/-- Fiscal-period labels: ordered, comparable (dates in the data). -/
abbrev Period := Int

/-- A pandas Series: an ordered list of (index label, value) pairs. -/
abbrev Series := List (Period × FVal)

/-- The index of a Series. -/
def sIndex (l : Series) : List Period := l.map Prod.fst

/-- Label lookup in a Series (first occurrence; statement columns are
unique in the data). -/
def sLookup (l : Series) (p : Period) : Option FVal :=
  (l.find? (fun e => e.1 == p)).map Prod.snd

/-- Ascending insertion into a sorted label list. -/
def insAsc (x : Period) : List Period → List Period
  | [] => [x]
  | y :: ys => if x ≤ y then x :: y :: ys else y :: insAsc x ys

/-- Ascending sort of a label list (pandas sorts a union of unequal
indexes ascending). -/
def sortAsc : List Period → List Period
  | [] => []
  | x :: xs => insAsc x (sortAsc xs)

/-- Union of two Series indexes as pandas aligns binary operations:
equal indexes are kept as-is, unequal ones give the ascending-sorted
union. -/
def sUnionIdx (a b : List Period) : List Period :=
  sortAsc (a ++ b.filter (fun p => decide (p ∉ a)))

/-- Index-aligned binary operation on two Series: pointwise when the
indexes coincide, otherwise over the union index with NaN for labels
missing on either side. -/
def sBinop (f : FVal → FVal → FVal) (a b : Series) : Series :=
  if sIndex a = sIndex b then
    List.zipWith (fun x y => (x.1, f x.2 y.2)) a b
  else
    (sUnionIdx (sIndex a) (sIndex b)).map
      (fun p => (p, f ((sLookup a p).getD .nan) ((sLookup b p).getD .nan)))

/-- Series addition. -/
def sAdd (a b : Series) : Series := sBinop FVal.add a b

/-- Series division. -/
def sDiv (a b : Series) : Series := sBinop FVal.div a b

/-- Multiplication of a Series by a numeric scalar. -/
def sScale (c : Rat) (l : Series) : Series :=
  l.map (fun e => (e.1, e.2.mul (.num c)))

/-- Forward fill (pandas pad): each NaN is replaced by the nearest
earlier-position valid value; the accumulator holds that value. -/
def ffillAux : FVal → Series → Series
  | _, [] => []
  | last, (p, .nan) :: t => (p, last) :: ffillAux last t
  | _, (p, v) :: t => (p, v) :: ffillAux v t

/-- The positional core of pandas `pct_change(periods=-1)`:
value at position i becomes v[i] / v[i+1] - 1, the last position NaN. -/
def pctCore : Series → Series
  | [] => []
  | [(p, _)] => [(p, .nan)]
  | (p, v) :: (q, w) :: rest =>
      (p, (v.div w).sub (.num 1)) :: pctCore ((q, w) :: rest)

/-- pandas `Series.pct_change(periods=-1)` with its default pad fill. -/
def sPctChangeNeg1 (l : Series) : Series := pctCore (ffillAux .nan l)

/-- A financial statement: a DataFrame with fiscal-period columns and
line-item rows. -/
structure DataFrame where
  cols : List Period
  rows : List (String × List FVal)
deriving DecidableEq

/-- `df.loc[name]`: the row as a Series over the column labels, or a
KeyError when the label is absent (first occurrence; yfinance line-item
labels are unique). -/
def DataFrame.locE (df : DataFrame) (name : String) : Except String Series :=
  match df.rows.find? (fun r => r.1 == name) with
  | some r => .ok (df.cols.zip r.2)
  | none => .error "KeyError"

/-- Whether a line-item row is present. -/
def DataFrame.hasRow (df : DataFrame) (name : String) : Bool :=
  (df.rows.find? (fun r => r.1 == name)).isSome

/-- The triple of statements one FinancialMetricsCalculator holds. -/
structure StatementSet where
  income_stmt : DataFrame
  balance_sheet : DataFrame
  cash_flow : DataFrame
deriving DecidableEq

/-- The empty Series returned by every except-branch. -/
def emptySeries : Series := []

/-- `try: body except: return pd.Series()` around a metric body. -/
def catchEmpty : Except String Series → Series
  | .ok s => s
  | .error _ => emptySeries

/-- The same except-wrapper seen from inside an exception-tracking
computation: the handler turns any error into a normal result. -/
def tryCatch (x : Except String Series) : Except String Series :=
  .ok (catchEmpty x)

/-- Body of calculate_revenue_growth:
`income_stmt.loc['Total Revenue'].pct_change(periods=-1) * 100`. -/
def calculate_revenue_growthE (s : StatementSet) : Except String Series := do
  let revenue ← s.income_stmt.locE "Total Revenue"
  pure (sScale 100 (sPctChangeNeg1 revenue))

/-- calculate_revenue_growth with its try/except wrapper. -/
def calculate_revenue_growth (s : StatementSet) : Series :=
  catchEmpty (calculate_revenue_growthE s)

/-- Body of calculate_gross_margin: `(Gross Profit / Total Revenue) * 100`. -/
def calculate_gross_marginE (s : StatementSet) : Except String Series := do
  let revenue ← s.income_stmt.locE "Total Revenue"
  let gross_profit ← s.income_stmt.locE "Gross Profit"
  pure (sScale 100 (sDiv gross_profit revenue))

/-- calculate_gross_margin with its try/except wrapper. -/
def calculate_gross_margin (s : StatementSet) : Series :=
  catchEmpty (calculate_gross_marginE s)

/-- Body of calculate_operating_margin:
`(Operating Income / Total Revenue) * 100`. -/
def calculate_operating_marginE (s : StatementSet) : Except String Series := do
  let revenue ← s.income_stmt.locE "Total Revenue"
  let operating_income ← s.income_stmt.locE "Operating Income"
  pure (sScale 100 (sDiv operating_income revenue))

/-- calculate_operating_margin with its try/except wrapper. -/
def calculate_operating_margin (s : StatementSet) : Series :=
  catchEmpty (calculate_operating_marginE s)

/-- Body of calculate_net_margin: `(Net Income / Total Revenue) * 100`. -/
def calculate_net_marginE (s : StatementSet) : Except String Series := do
  let revenue ← s.income_stmt.locE "Total Revenue"
  let net_income ← s.income_stmt.locE "Net Income"
  pure (sScale 100 (sDiv net_income revenue))

/-- calculate_net_margin with its try/except wrapper. -/
def calculate_net_margin (s : StatementSet) : Series :=
  catchEmpty (calculate_net_marginE s)

/-- Body of calculate_free_cash_flow:
`Operating Cash Flow + Capital Expenditure` (capex is stored negative). -/
def calculate_free_cash_flowE (s : StatementSet) : Except String Series := do
  let operating_cf ← s.cash_flow.locE "Operating Cash Flow"
  let capex ← s.cash_flow.locE "Capital Expenditure"
  pure (sAdd operating_cf capex)

/-- calculate_free_cash_flow with its try/except wrapper. -/
def calculate_free_cash_flow (s : StatementSet) : Series :=
  catchEmpty (calculate_free_cash_flowE s)

/-- Body of calculate_current_ratio:
`Current Assets / Current Liabilities`. -/
def calculate_current_ratioE (s : StatementSet) : Except String Series := do
  let current_assets ← s.balance_sheet.locE "Current Assets"
  let current_liabilities ← s.balance_sheet.locE "Current Liabilities"
  pure (sDiv current_assets current_liabilities)

/-- calculate_current_ratio with its try/except wrapper. -/
def calculate_current_ratio (s : StatementSet) : Series :=
  catchEmpty ( calculate_current_ratioE s)

/-- Body of calculate_debt_to_equity: `Total Debt / Stockholders Equity`. -/
def calculate_debt_to_equityE (s : StatementSet) : Except String Series := do
  let total_debt ← s.balance_sheet.locE "Total Debt"
  let stockholders_equity ← s.balance_sheet.locE "Stockholders Equity"
  pure (sDiv total_debt stockholders_equity)

/-- calculate_debt_to_equity with its try/except wrapper. -/
def calculate_debt_to_equity (s : StatementSet) : Series :=
  catchEmpty (calculate_debt_to_equityE s)

/-- Body of calculate_roe: `(Net Income / Stockholders Equity) * 100`;
the numerator comes from the income statement, the denominator from the
balance sheet. -/
def calculate_roeE (s : StatementSet) : Except String Series := do
  let net_income ← s.income_stmt.locE "Net Income"
  let equity ← s.balance_sheet.locE "Stockholders Equity"
  pure (sScale 100 (sDiv net_income equity))

/-- calculate_roe with its try/except wrapper. -/
def calculate_roe (s : StatementSet) : Series :=
  catchEmpty (calculate_roeE s)

/-- Body of calculate_roa: `(Net Income / Total Assets) * 100`. -/
def calculate_roaE (s : StatementSet) : Except String Series := do
  let net_income ← s.income_stmt.locE "Net Income"
  let total_assets ← s.balance_sheet.locE "Total Assets"
  pure (sScale 100 (sDiv net_income total_assets))

/-- calculate_roa with its try/except wrapper. -/
def calculate_roa (s : StatementSet) : Series :=
  catchEmpty (calculate_roaE s)

/-- One row of a MetricsTable: the nine metric values for one period,
in the column order of calculate_all_metrics. -/
abbrev MRow := List FVal

/-- The nine metric column names, in the dict order of
calculate_all_metrics. -/
def metricNames : List String :=
  ["Revenue Growth (%)", "Gross Margin (%)", "Operating Margin (%)",
   "Net Margin (%)", "Free Cash Flow", "Current Ratio",
   "Debt to Equity", "ROE (%)", "ROA (%)"]

/-- The nine metric Series, in the dict order of calculate_all_metrics. -/
def allSeries (s : StatementSet) : List Series :=
  [calculate_revenue_growth s, calculate_gross_margin s,
   calculate_operating_margin s, calculate_net_margin s,
   calculate_free_cash_flow s, calculate_current_ratio s,
   calculate_debt_to_equity s, calculate_roe s, calculate_roa s]

/-- The row index `pd.DataFrame(dict of Series)` produces: the union of
the series indexes (first-occurrence order; the subsequent descending
sort makes the intermediate order immaterial). -/
def dfIndexUnion (ss : List Series) : List Period :=
  ss.foldl (fun acc m => acc ++ (sIndex m).filter (fun p => decide (p ∉ acc))) []

/-- The cells of one table row: each metric's value at the period, NaN
where the metric has no value for that period (the outer join). -/
def tableCells (ss : List Series) (p : Period) : MRow :=
  ss.map (fun m => (sLookup m p).getD FVal.nan)

/-- `pd.DataFrame(metrics)`: one row per union-index period. -/
def buildTable (ss : List Series) : List (Period × MRow) :=
  (dfIndexUnion ss).map (fun p => (p, tableCells ss p))

/-- Descending insertion by period label. -/
def insDesc (x : Period × MRow) : List (Period × MRow) → List (Period × MRow)
  | [] => [x]
  | y :: t => if y.1 ≤ x.1 then x :: y :: t else y :: insDesc x t

/-- `df.sort_index(ascending=False)`: rows sorted newest-first. -/
def sortRowsDesc : List (Period × MRow) → List (Period × MRow)
  | [] => []
  | x :: t => insDesc x (sortRowsDesc t)

/-- calculate_all_metrics: assemble the nine series into one table and
sort its rows newest-first. -/
def calculate_all_metrics (s : StatementSet) : List (Period × MRow) :=
  sortRowsDesc (buildTable (allSeries s))

/-- calculate_all_metrics with the exception behaviour of each metric
body made explicit: every body runs under its own try/except handler. -/
def calculate_all_metricsE (s : StatementSet) :
    Except String (List (Period × MRow)) := do
  let g ← tryCatch (calculate_revenue_growthE s)
  let gm ← tryCatch (calculate_gross_marginE s)
  let om ← tryCatch (calculate_operating_marginE s)
  let nm ← tryCatch (calculate_net_marginE s)
  let fcf ← tryCatch (calculate_free_cash_flowE s)
  let cur ← tryCatch ( calculate_current_ratioE s)
  let dte ← tryCatch (calculate_debt_to_equityE s)
  let roe ← tryCatch (calculate_roeE s)
  let roa ← tryCatch (calculate_roaE s)
  pure (sortRowsDesc (buildTable [g, gm, om, nm, fcf, cur, dte, roe, roa]))

/-- `metrics.iloc[0]`: the first table row, or an IndexError when the
table is empty. -/
def iloc0E (t : List (Period × MRow)) : Except String (Period × MRow) :=
  match t with
  | [] => .error "IndexError"
  | r :: _ => .ok r

/-- create_comparison_dataframe: for each company (tickers in dict
order), compute its MetricsTable; when it is non-empty append the most
recent row tagged with the ticker, otherwise skip the company. -/
def create_comparison_dataframe (cs : List (String × StatementSet)) :
    List (String × MRow) :=
  cs.filterMap (fun c =>
    match calculate_all_metrics c.2 with
    | [] => none
    | r :: _ => some (c.1, r.2))

/-- create_comparison_dataframe with the `if not metrics.empty` guard
around `iloc[0]` made explicit in the exception monad. -/
def create_comparison_dataframeE :
    List (String × StatementSet) → Except String (List (String × MRow))
  | [] => .ok []
  | c :: rest => do
      let metrics ← calculate_all_metricsE c.2
      if metrics.isEmpty then
        create_comparison_dataframeE rest
      else do
        let latest ← iloc0E metrics
        let tail ← create_comparison_dataframeE rest
        pure ((c.1, latest.2) :: tail)

/-- A two-period income statement (columns newest-first, as yfinance
stores them). -/
def demoIncome : DataFrame :=
  { cols := [2023, 2022],
    rows := [("Total Revenue", [.num 120, .num 100]),
             ("Gross Profit", [.num 54, .num 40]),
             ("Operating Income", [.num 30, .num 22]),
             ("Net Income", [.num 24, .num 18])] }

/-- A matching two-period balance sheet. -/
def demoBalance : DataFrame :=
  { cols := [2023, 2022],
    rows := [("Current Assets", [.num 200, .num 180]),
             ("Current Liabilities", [.num 100, .num 90]),
             ("Total Debt", [.num 50, .num 60]),
             ("Stockholders Equity", [.num 100, .num 95]),
             ("Total Assets", [.num 400, .num 380])] }

/-- A matching two-period cash-flow statement. -/
def demoCash : DataFrame :=
  { cols := [2023, 2022],
    rows := [("Operating Cash Flow", [.num 500, .num 450]),
             ("Capital Expenditure", [.num (-120), .num (-110)])] }

/-- A fully populated StatementSet. -/
def demoS : StatementSet :=
  { income_stmt := demoIncome, balance_sheet := demoBalance,
    cash_flow := demoCash }

/-- An empty statement table. -/
def emptyDF : DataFrame := { cols := [], rows := [] }

/-- A StatementSet whose three statements are all empty. -/
def emptyS : StatementSet :=
  { income_stmt := emptyDF, balance_sheet := emptyDF, cash_flow := emptyDF }

/-- Same income statement as demoS but a different cash-flow statement:
used to observe that income-only metrics ignore the cash flow. -/
def demoS2 : StatementSet :=
  { income_stmt := demoIncome, balance_sheet := demoBalance,
    cash_flow := emptyDF }

/-- A StatementSet with a populated income statement and cash flow but
an empty balance sheet. -/
def emptyBalS : StatementSet :=
  { income_stmt := demoIncome, balance_sheet := emptyDF,
    cash_flow := demoCash }

/-- An income statement whose Total Revenue is zero at its only period
while Gross Profit is 40 there: a zero denominator with a nonzero
numerator. -/
def zeroRevIncome : DataFrame :=
  { cols := [2023],
    rows := [("Total Revenue", [.num 0]), ("Gross Profit", [.num 40])] }

/-- StatementSet carrying zeroRevIncome. -/
def zeroRevS : StatementSet :=
  { income_stmt := zeroRevIncome, balance_sheet := emptyDF,
    cash_flow := emptyDF }

/-- A one-period StatementSet whose gross-margin denominator is zero
with a nonzero numerator and whose current-ratio denominator and
numerator are both zero. -/
def zeroDenS : StatementSet :=
  { income_stmt := zeroRevIncome,
    balance_sheet :=
      { cols := [2023],
        rows := [("Current Assets", [.num 0]),
                 ("Current Liabilities", [.num 0])] },
    cash_flow := emptyDF }

theorem ffillAux_of_no_nan (x : FVal) (l : Series)
    (h : ∀ e ∈ l, e.2 ≠ FVal.nan) : ffillAux x l = l := by
  induction l generalizing x with
  | nil => rfl
  | cons e t ih =>
      obtain ⟨p, v⟩ := e
      cases v with
      | nan => exact absurd rfl (h (p, .nan) (by simp))
      | inf s =>
          simp only [ffillAux]
          exact congrArg _ (ih _ (fun e he => h e (List.mem_cons_of_mem _ he)))
      | num a =>
          simp only [ffillAux]
          exact congrArg _ (ih _ (fun e he => h e (List.mem_cons_of_mem _ he)))

theorem pctCore_map_fst (l : Series) :
    (pctCore l).map Prod.fst = l.map Prod.fst := by
  induction l using pctCore.induct with
  | case1 => rfl
  | case2 p v => rfl
  | case3 p v q w rest ih => simpa [pctCore] using ih

theorem pctCore_length (l : Series) : (pctCore l).length = l.length := by
  have := congrArg List.length (pctCore_map_fst l)
  simpa using this

theorem pctCore_getElem? (l : Series) (i : Nat) (a b : Period × FVal)
    (h1 : l[i]? = some a) (h2 : l[i + 1]? = some b) :
    (pctCore l)[i]? = some (a.1, (a.2.div b.2).sub (FVal.num 1)) := by
  induction l using pctCore.induct generalizing i with
  | case1 => simp at h1
  | case2 p v => simp at h2
  | case3 p v q w rest ih =>
      cases i with
      | zero =>
          have ha : (p, v) = a := by simpa using h1
          have hb : (q, w) = b := by simpa using h2
          subst ha; subst hb
          simp [pctCore]
      | succ n =>
          rw [List.getElem?_cons_succ] at h1
          rw [List.getElem?_cons_succ] at h2
          simpa [pctCore] using ih n h1 h2

theorem pctCore_getLast? (l : Series) (a : Period × FVal)
    (h : l.getLast? = some a) :
    (pctCore l).getLast? = some (a.1, FVal.nan) := by
  induction l using pctCore.induct with
  | case1 => simp at h
  | case2 p v =>
      simp only [List.getLast?_singleton, Option.some.injEq] at h
      subst h
      rfl
  | case3 p v q w rest ih =>
      rw [List.getLast?_cons_cons] at h
      have htail := ih h
      have hne : pctCore ((q, w) :: rest) ≠ [] := by
        intro hnil
        have := pctCore_length ((q, w) :: rest)
        rw [hnil] at this
        simp at this
      obtain ⟨c, m, hm⟩ := List.exists_cons_of_ne_nil hne
      show ((p, (v.div w).sub (FVal.num 1)) :: pctCore ((q, w) :: rest)).getLast?
        = some (a.1, FVal.nan)
      rw [hm, List.getLast?_cons_cons, ← hm, htail]

theorem sScale_getElem? (c : Rat) (l : Series) (i : Nat) (e : Period × FVal)
    (h : l[i]? = some e) :
    (sScale c l)[i]? = some (e.1, e.2.mul (FVal.num c)) := by
  simp [sScale, List.getElem?_map, h]

theorem sScale_map_fst (c : Rat) (l : Series) :
    (sScale c l).map Prod.fst = l.map Prod.fst := by
  simp [sScale, List.map_map]

theorem sScale_getLast? (c : Rat) (l : Series) (e : Period × FVal)
    (h : l.getLast? = some e) :
    (sScale c l).getLast? = some (e.1, e.2.mul (FVal.num c)) := by
  simp [sScale, List.getLast?_map, h]

theorem locE_of_hasRow_false (df : DataFrame) (n : String)
    (h : df.hasRow n = false) : df.locE n = .error "KeyError" := by
  unfold DataFrame.hasRow at h
  unfold DataFrame.locE
  cases hf : df.rows.find? (fun r => r.1 == n) with
  | none => rfl
  | some r => rw [hf] at h; simp at h

theorem hasRow_of_rows_nil (df : DataFrame) (n : String)
    (h : df.rows = []) : df.hasRow n = false := by
  unfold DataFrame.hasRow
  rw [h]
  rfl

theorem revenue_growth_eq_pct (s : StatementSet) (ps : List Period)
    (vs : List Rat)
    (hloc : s.income_stmt.locE "Total Revenue" =
      Except.ok (ps.zip (vs.map FVal.num))) :
    calculate_revenue_growth s = sScale 100 (pctCore (ps.zip (vs.map FVal.num))) := by
  have hnn : ∀ e ∈ ps.zip (vs.map FVal.num), e.2 ≠ FVal.nan := by
    intro e he hbad
    obtain ⟨-, h2⟩ := List.of_mem_zip he
    rw [hbad] at h2
    simp [List.mem_map] at h2
  unfold calculate_revenue_growth calculate_revenue_growthE
  rw [hloc]
  show sScale 100 (sPctChangeNeg1 (ps.zip (vs.map FVal.num)))
      = sScale 100 (pctCore (ps.zip (vs.map FVal.num)))
  unfold sPctChangeNeg1
  rw [ffillAux_of_no_nan _ _ hnn]

theorem growth_cell_eq (v₀ v₁ : Rat) (h : v₁ ≠ 0) :
    (((FVal.num v₀).div (FVal.num v₁)).sub (FVal.num 1)).mul (FVal.num 100)
      = FVal.num ((v₀ - v₁) / v₁ * 100) := by
  simp only [FVal.div, FVal.sub, FVal.neg, FVal.add, FVal.mul, if_neg h]
  congr 1
  field_simp
  ring

theorem zip_num_getElem? (ps : List Period) (vs : List Rat) (i : Nat)
    (p : Period) (v : Rat) (hp : ps[i]? = some p) (hv : vs[i]? = some v) :
    (ps.zip (vs.map FVal.num))[i]? = some (p, FVal.num v) := by
  simp [List.zip, List.getElem?_zipWith, hp, List.getElem?_map, hv]

theorem growth_getElem_formula (s : StatementSet) (ps : List Period)
    (vs : List Rat)
    (hloc : s.income_stmt.locE "Total Revenue" =
      Except.ok (ps.zip (vs.map FVal.num)))
    (hlen : ps.length = vs.length) :
    ∀ i p v₀ v₁, ps[i]? = some p → vs[i]? = some v₀ →
      vs[i + 1]? = some v₁ → v₁ ≠ 0 →
      (calculate_revenue_growth s)[i]? =
        some (p, FVal.num ((v₀ - v₁) / v₁ * 100)) := by
  intro i p v₀ v₁ hp hv0 hv1 hnz
  have heq := revenue_growth_eq_pct s ps vs hloc
  have hi1 : i + 1 < ps.length := by
    rw [hlen]
    exact (List.getElem?_eq_some.mp hv1).1
  have hp1 : ps[i + 1]? = some ps[i + 1] := List.getElem?_eq_getElem hi1
  have hz0 := zip_num_getElem? ps vs i p v₀ hp hv0
  have hz1 := zip_num_getElem? ps vs (i + 1) ps[i + 1] v₁ hp1 hv1
  have hcell := pctCore_getElem? _ i _ _ hz0 hz1
  have hfin := sScale_getElem? 100 _ i _ hcell
  rw [heq, hfin]
  simp only
  rw [growth_cell_eq v₀ v₁ hnz]

/-- C1: when the income statement stores a numeric "Total Revenue" row
over at least two fiscal periods, newest first (strictly decreasing
labels, so position i + 1 is the chronological predecessor of position
i), calculate_revenue_growth keeps the period labels, gives every
period with a chronological predecessor the value
(rev[t] - rev[t-1]) / rev[t-1] * 100, and leaves the chronologically
earliest period (the last stored position) undefined (NaN). -/
theorem C1_revenue_growth_formula (s : StatementSet) (ps : List Period)
    (vs : List Rat)
    (hloc : s.income_stmt.locE "Total Revenue" =
      Except.ok (ps.zip (vs.map FVal.num)))
    (hlen : ps.length = vs.length) (h2 : 2 ≤ ps.length)
    (hdesc : ps.Chain' (fun a b => b < a))
    (hnz : ∀ i v, vs[i + 1]? = some v → v ≠ 0) :
    ((calculate_revenue_growth s).map Prod.fst = ps) ∧
    (∀ i p v₀ v₁, ps[i]? = some p → vs[i]? = some v₀ →
      vs[i + 1]? = some v₁ →
      (calculate_revenue_growth s)[i]? =
        some (p, FVal.num ((v₀ - v₁) / v₁ * 100))) ∧
    (∀ p, ps.getLast? = some p →
      (calculate_revenue_growth s).getLast? = some (p, FVal.nan)) := by
  have heq := revenue_growth_eq_pct s ps vs hloc
  refine ⟨?_, ?_, ?_⟩
  · rw [heq, sScale_map_fst, pctCore_map_fst, List.map_fst_zip]
    simp [hlen]
  · intro i p v₀ v₁ hp hv0 hv1
    exact growth_getElem_formula s ps vs hloc hlen i p v₀ v₁ hp hv0 hv1
      (hnz i v₁ hv1)
  · intro p hp
    have hpos : 0 < ps.length := by omega
    have hp' : ps[ps.length - 1]? = some p := by
      rw [← List.getLast?_eq_getElem?]
      exact hp
    have hvlt : ps.length - 1 < vs.length := by omega
    have hv' : vs[ps.length - 1]? = some vs[ps.length - 1] :=
      List.getElem?_eq_getElem hvlt
    have hz := zip_num_getElem? ps vs (ps.length - 1) p vs[ps.length - 1] hp' hv'
    have hzlast : (ps.zip (vs.map FVal.num)).getLast?
        = some (p, FVal.num vs[ps.length - 1]) := by
      rw [List.getLast?_eq_getElem?]
      have hzl : (ps.zip (vs.map FVal.num)).length = ps.length := by
        simp [hlen]
      rw [hzl]
      exact hz
    have hcell := pctCore_getLast? _ _ hzlast
    have hfin := sScale_getLast? 100 _ _ hcell
    rw [heq, hfin]
    rfl

/-- Witness for C1 at a concrete two-period statement: growth for 2023
is (120 - 100) / 100 * 100 = 20 and the earliest period 2022 is NaN. -/
theorem C1_witness :
    (2 : Nat) ≤ ([2023, 2022] : List Period).length ∧
    (calculate_revenue_growth demoS)[0]? = some ((2023 : Period), FVal.num 20) ∧
    (calculate_revenue_growth demoS).getLast? = some ((2022 : Period), FVal.nan) := by
  have h := C1_revenue_growth_formula demoS [2023, 2022] [120, 100] rfl rfl
    (by decide) (by norm_num [List.chain'_cons])
    (by
      intro i v hv
      rcases i with _ | i
      · have : v = 100 := by simpa using hv.symm
        rw [this]
        norm_num
      · simp at hv)
  refine ⟨by decide, ?_, h.2.2 2022 rfl⟩
  have h0 := h.2.1 0 2023 120 100 rfl rfl rfl
  norm_num at h0
  exact h0

/-- The value column of the pct-change core: it consults only the
stored values, never the period labels. -/
def valsCore : List FVal → List FVal
  | [] => []
  | [_] => [.nan]
  | v :: w :: rest => ((v.div w).sub (.num 1)) :: valsCore (w :: rest)

theorem pctCore_map_snd (l : Series) :
    (pctCore l).map Prod.snd = valsCore (l.map Prod.snd) := by
  induction l using pctCore.induct with
  | case1 => rfl
  | case2 p v => rfl
  | case3 p v q w rest ih => simpa [pctCore, valsCore] using ih

theorem sScale_map_snd (c : Rat) (l : Series) :
    (sScale c l).map Prod.snd = (l.map Prod.snd).map (fun v => v.mul (.num c)) := by
  simp [sScale, List.map_map]

/-- An income statement storing the same revenue data as demoIncome but
oldest-first (ascending period labels). -/
def ascIncome : DataFrame :=
  { cols := [2022, 2023],
    rows := [("Total Revenue", [.num 100, .num 120])] }

/-- StatementSet carrying ascIncome. -/
def ascS : StatementSet :=
  { income_stmt := ascIncome, balance_sheet := emptyDF, cash_flow := emptyDF }

/-- The same stored revenue values under arbitrary other period labels. -/
def relabelIncome : DataFrame :=
  { cols := [5, 7],
    rows := [("Total Revenue", [.num 100, .num 120])] }

/-- StatementSet carrying relabelIncome. -/
def relabelS : StatementSet :=
  { income_stmt := relabelIncome, balance_sheet := emptyDF,
    cash_flow := emptyDF }

/-- C10: calculate_revenue_growth is purely positional.  First, its
value column is the same for any two statements storing the same value
sequence under different period labels (the labels are never sorted or
consulted).  Second, when the statement is stored oldest-first
(ascending labels), the value at position i — the chronologically
EARLIER period ps[i] — is (vs[i] - vs[i+1]) / vs[i+1] * 100, i.e. the
change of the earlier value measured against the later one: the
inverse-direction change, not chronological period-over-period growth. -/
theorem C10_growth_is_positional (s t : StatementSet) (ps qs : List Period)
    (vs : List Rat)
    (hloc : s.income_stmt.locE "Total Revenue" =
      Except.ok (ps.zip (vs.map FVal.num)))
    (hloc2 : t.income_stmt.locE "Total Revenue" =
      Except.ok (qs.zip (vs.map FVal.num)))
    (hlen : ps.length = vs.length) (hlen2 : qs.length = vs.length)
    (hasc : ps.Chain' (fun a b => a < b)) :
    ((calculate_revenue_growth s).map Prod.snd
      = (calculate_revenue_growth t).map Prod.snd) ∧
    (∀ i p v₀ v₁, ps[i]? = some p → vs[i]? = some v₀ →
      vs[i + 1]? = some v₁ → v₁ ≠ 0 →
      (calculate_revenue_growth s)[i]? =
        some (p, FVal.num ((v₀ - v₁) / v₁ * 100))) := by
  constructor
  · rw [revenue_growth_eq_pct s ps vs hloc, revenue_growth_eq_pct t qs vs hloc2,
      sScale_map_snd, sScale_map_snd, pctCore_map_snd, pctCore_map_snd,
      List.map_snd_zip, List.map_snd_zip]
    · rw [List.length_map]; omega
    · rw [List.length_map]; omega
  · exact growth_getElem_formula s ps vs hloc hlen

/-- Witness for C10: the oldest-first statement ascS and the relabelled
relabelS produce identical value columns, and ascS assigns period 2022
(the earlier one) the inverse-direction change against 2023's value. -/
theorem C10_witness :
    ((calculate_revenue_growth ascS).map Prod.snd
      = (calculate_revenue_growth relabelS).map Prod.snd) ∧
    (calculate_revenue_growth ascS)[0]? =
      some ((2022 : Period), FVal.num ((100 - 120) / 120 * 100)) := by
  have h := C10_growth_is_positional ascS relabelS [2022, 2023] [5, 7]
    [100, 120] rfl rfl rfl rfl (by norm_num [List.chain'_cons])
  exact ⟨h.1, h.2 0 2022 100 120 rfl rfl rfl (by norm_num)⟩

theorem sIndex_zip_num (ps : List Period) (vs : List Rat)
    (h : ps.length = vs.length) :
    sIndex (ps.zip (vs.map FVal.num)) = ps := by
  unfold sIndex
  exact List.map_fst_zip _ _ (by rw [List.length_map]; omega)

theorem sBinop_zip_getElem? (f : FVal → FVal → FVal) (ps : List Period)
    (va vb : List Rat) (h1 : ps.length = va.length)
    (h2 : ps.length = vb.length) (i : Nat) (p : Period) (a b : Rat)
    (hp : ps[i]? = some p) (ha : va[i]? = some a) (hb : vb[i]? = some b) :
    (sBinop f (ps.zip (va.map FVal.num)) (ps.zip (vb.map FVal.num)))[i]? =
      some (p, f (FVal.num a) (FVal.num b)) := by
  unfold sBinop
  rw [if_pos (by rw [sIndex_zip_num ps va h1, sIndex_zip_num ps vb h2])]
  have hz0 := zip_num_getElem? ps va i p a hp ha
  have hz1 := zip_num_getElem? ps vb i p b hp hb
  simp [List.getElem?_zipWith, hz0, hz1]

theorem sBinop_zip_map_fst (f : FVal → FVal → FVal) (ps : List Period)
    (va vb : List Rat) (h1 : ps.length = va.length)
    (h2 : ps.length = vb.length) :
    (sBinop f (ps.zip (va.map FVal.num)) (ps.zip (vb.map FVal.num))).map
      Prod.fst = ps := by
  unfold sBinop
  rw [if_pos (by rw [sIndex_zip_num ps va h1, sIndex_zip_num ps vb h2])]
  have hz : ∀ (l₁ l₂ : Series),
      (List.zipWith (fun x y => (x.1, f x.2 y.2)) l₁ l₂).map Prod.fst
        = (l₁.take (min l₁.length l₂.length)).map Prod.fst := by
    intro l₁ l₂
    induction l₁ generalizing l₂ with
    | nil => simp
    | cons e t ih =>
        cases l₂ with
        | nil => simp
        | cons e2 t2 => simpa [Nat.succ_min_succ] using ih t2
  rw [hz]
  have hl : (ps.zip (va.map FVal.num)).length = ps.length := by
    simp [h1]
  have hl2 : (ps.zip (vb.map FVal.num)).length = ps.length := by
    simp [h2]
  rw [hl, hl2, Nat.min_self, ← hl, List.take_length]
  exact sIndex_zip_num ps va h1

theorem gross_margin_eq (s : StatementSet) (ps : List Period)
    (va vb : List Rat)
    (hgp : s.income_stmt.locE "Gross Profit" =
      Except.ok (ps.zip (va.map FVal.num)))
    (hrev : s.income_stmt.locE "Total Revenue" =
      Except.ok (ps.zip (vb.map FVal.num))) :
    calculate_gross_margin s =
      sScale 100 (sDiv (ps.zip (va.map FVal.num)) (ps.zip (vb.map FVal.num))) := by
  unfold calculate_gross_margin calculate_gross_marginE
  rw [hrev, hgp]
  rfl

theorem current_ratio_eq (s : StatementSet) (ps : List Period)
    (va vb : List Rat)
    (hca : s.balance_sheet.locE "Current Assets" =
      Except.ok (ps.zip (va.map FVal.num)))
    (hcl : s.balance_sheet.locE "Current Liabilities" =
      Except.ok (ps.zip (vb.map FVal.num))) :
    calculate_current_ratio s =
      sDiv (ps.zip (va.map FVal.num)) (ps.zip (vb.map FVal.num)) := by
  unfold calculate_current_ratio calculate_current_ratioE
  rw [hca, hcl]
  rfl

theorem div_num_cases (a b : Rat) :
    (FVal.num a).div (FVal.num b) =
      if b = 0 then (if a = 0 then FVal.nan else FVal.inf (decide (0 < a)))
      else FVal.num (a / b) := rfl

theorem div_num_mul100_cases (a b : Rat) :
    ((FVal.num a).div (FVal.num b)).mul (FVal.num 100) =
      if b = 0 then (if a = 0 then FVal.nan else FVal.inf (decide (0 < a)))
      else FVal.num (a / b * 100) := by
  by_cases hb : b = 0
  · by_cases ha : a = 0
    · simp [FVal.div, hb, ha, FVal.mul]
    · simp only [FVal.div, if_pos hb, if_neg ha]
      show FVal.mul (.inf (decide (0 < a))) (.num 100) = _
      simp only [FVal.mul]
      rw [if_neg (by norm_num)]
      have hd : decide ((0 : Rat) < 100) = true := by decide
      rw [hd]
      cases decide (0 < a) <;> rfl
  · simp [FVal.div, hb, FVal.mul]

/-- C2 counterexample: at the only period of zeroRevS the gross-margin
denominator "Total Revenue" is 0 while "Gross Profit" is 40, and
calculate_gross_margin returns positive infinity for that period — an
infinity treated as a value, not an undefined (NaN) value — refuting
the claim that a zero denominator always yields an undefined value. -/
theorem C2_counterexample_inf_cell :
    calculate_gross_margin zeroRevS = [((2023 : Period), FVal.inf true)] ∧
    FVal.inf true ≠ FVal.nan := by
  constructor
  · decide
  · decide

/-- C2 as amended: with numeric rows over shared periods, a metric cell
whose denominator is zero is NaN (undefined) only when the numerator is
also zero; a nonzero numerator over a zero denominator gives a signed
infinity; a nonzero denominator gives the ordinary quotient.  In every
case only that period's cell is affected (each position i is computed
independently and the period labels are preserved), division by an
undefined value still yields an undefined value, the revenue-growth
pipeline applied to a zero prior value likewise gives infinity (nonzero
numerator) or NaN (zero numerator), and no exception escapes (the
metric bodies return ordinary results). -/
theorem C2_amended_zero_denominator (s : StatementSet) (ps : List Period)
    (va vb ca cl : List Rat)
    (hgp : s.income_stmt.locE "Gross Profit" =
      Except.ok (ps.zip (va.map FVal.num)))
    (hrev : s.income_stmt.locE "Total Revenue" =
      Except.ok (ps.zip (vb.map FVal.num)))
    (hca : s.balance_sheet.locE "Current Assets" =
      Except.ok (ps.zip (ca.map FVal.num)))
    (hcl : s.balance_sheet.locE "Current Liabilities" =
      Except.ok (ps.zip (cl.map FVal.num)))
    (h1 : ps.length = va.length) (h2 : ps.length = vb.length)
    (h3 : ps.length = ca.length) (h4 : ps.length = cl.length) :
    (∀ (i : Nat) (p : Period) (a b : Rat), ps[i]? = some p →
      va[i]? = some a → vb[i]? = some b →
      (calculate_gross_margin s)[i]? =
        some (p, if b = 0
          then (if a = 0 then FVal.nan else FVal.inf (decide (0 < a)))
          else FVal.num (a / b * 100))) ∧
    (∀ (i : Nat) (p : Period) (a b : Rat), ps[i]? = some p →
      ca[i]? = some a → cl[i]? = some b →
      ( calculate_current_ratio s)[i]? =
        some (p, if b = 0
          then (if a = 0 then FVal.nan else FVal.inf (decide (0 < a)))
          else FVal.num (a / b))) ∧
    ((calculate_gross_margin s).map Prod.fst = ps ∧
     ( calculate_current_ratio s).map Prod.fst = ps) ∧
    (∀ x, FVal.div x FVal.nan = FVal.nan) ∧
    (∀ v : Rat, v ≠ 0 →
      (((FVal.num v).div (FVal.num 0)).sub (FVal.num 1)).mul (FVal.num 100)
        = FVal.inf (decide (0 < v))) ∧
    ((((FVal.num 0).div (FVal.num 0)).sub (FVal.num 1)).mul (FVal.num 100)
      = FVal.nan) ∧
    (calculate_gross_marginE s = Except.ok (calculate_gross_margin s) ∧
     calculate_current_ratioE s = Except.ok ( calculate_current_ratio s)) := by
  have hgm := gross_margin_eq s ps va vb hgp hrev
  have hcr := current_ratio_eq s ps ca cl hca hcl
  refine ⟨?_, ?_, ⟨?_, ?_⟩, ?_, ?_, ?_, ?_, ?_⟩
  · intro i p a b hp ha hb
    rw [hgm]
    have hc := sBinop_zip_getElem? FVal.div ps va vb h1 h2 i p a b hp ha hb
    have hf := sScale_getElem? 100 _ i _ hc
    rw [div_num_mul100_cases] at hf
    exact hf
  · intro i p a b hp ha hb
    rw [hcr]
    have hc := sBinop_zip_getElem? FVal.div ps ca cl h3 h4 i p a b hp ha hb
    rw [div_num_cases] at hc
    exact hc
  · rw [hgm, sScale_map_fst]
    exact sBinop_zip_map_fst FVal.div ps va vb h1 h2
  · rw [hcr]
    exact sBinop_zip_map_fst FVal.div ps ca cl h3 h4
  · intro x
    cases x <;> rfl
  · intro v hv
    simp only [FVal.div, if_pos rfl, if_neg hv]
    show FVal.mul (FVal.inf (decide (0 < v))) (FVal.num 100) = _
    simp only [FVal.mul]
    rw [if_neg (by norm_num)]
    have hd : decide ((0 : Rat) < 100) = true := by decide
    rw [hd]
    cases decide (0 < v) <;> rfl
  · rfl
  · unfold calculate_gross_marginE calculate_gross_margin calculate_gross_marginE
    rw [hrev, hgp]
    rfl
  · unfold calculate_current_ratioE calculate_current_ratio calculate_current_ratioE
    rw [hca, hcl]
    rfl

/-- Witness for C2's amended claim at zeroDenS: gross margin at the only
period (numerator 40, denominator 0) is positive infinity; current
ratio there (numerator 0, denominator 0) is NaN. -/
theorem C2_witness :
    (calculate_gross_margin zeroDenS)[0]? =
      some ((2023 : Period), FVal.inf true) ∧
    ( calculate_current_ratio zeroDenS)[0]? =
      some ((2023 : Period), FVal.nan) := by
  have h := C2_amended_zero_denominator zeroDenS [2023] [40] [0] [0] [0]
    rfl rfl rfl rfl rfl rfl rfl rfl
  constructor
  · have h0 := h.1 0 2023 40 0 rfl rfl rfl
    rw [h0]
    decide
  · have h0 := h.2.1 0 2023 0 0 rfl rfl rfl
    rw [h0]
    decide

theorem catch_two_lookup_empty (d1 d2 : DataFrame) (n1 n2 : String)
    (g : Series → Series → Series)
    (h : d1.hasRow n1 = false ∨ d2.hasRow n2 = false) :
    catchEmpty (do
      let a ← d1.locE n1
      let b ← d2.locE n2
      pure (g a b)) = emptySeries := by
  rcases h with h | h
  · rw [locE_of_hasRow_false _ _ h]
    rfl
  · cases hr : d1.locE n1 with
    | error e => rfl
    | ok x => rw [locE_of_hasRow_false _ _ h]; rfl

/-- C3: every metric operation degrades to the empty series — with no
exception escaping — whenever a required line-item row is absent from
the statement it reads, and in particular whenever that statement is
entirely empty. -/
theorem C3_missing_rows_empty_series (s : StatementSet) :
    (s.income_stmt.hasRow "Total Revenue" = false →
      calculate_revenue_growth s = emptySeries) ∧
    (s.income_stmt.hasRow "Total Revenue" = false ∨
     s.income_stmt.hasRow "Gross Profit" = false →
      calculate_gross_margin s = emptySeries) ∧
    (s.income_stmt.hasRow "Total Revenue" = false ∨
     s.income_stmt.hasRow "Operating Income" = false →
      calculate_operating_margin s = emptySeries) ∧
    (s.income_stmt.hasRow "Total Revenue" = false ∨
     s.income_stmt.hasRow "Net Income" = false →
      calculate_net_margin s = emptySeries) ∧
    (s.cash_flow.hasRow "Operating Cash Flow" = false ∨
     s.cash_flow.hasRow "Capital Expenditure" = false →
      calculate_free_cash_flow s = emptySeries) ∧
    (s.balance_sheet.hasRow "Current Assets" = false ∨
     s.balance_sheet.hasRow "Current Liabilities" = false →
      calculate_current_ratio s = emptySeries) ∧
    (s.balance_sheet.hasRow "Total Debt" = false ∨
     s.balance_sheet.hasRow "Stockholders Equity" = false →
      calculate_debt_to_equity s = emptySeries) ∧
    (s.income_stmt.hasRow "Net Income" = false ∨
     s.balance_sheet.hasRow "Stockholders Equity" = false →
      calculate_roe s = emptySeries) ∧
    (s.income_stmt.hasRow "Net Income" = false ∨
     s.balance_sheet.hasRow "Total Assets" = false →
      calculate_roa s = emptySeries) ∧
    (s.income_stmt.rows = [] →
      calculate_revenue_growth s = emptySeries ∧
      calculate_gross_margin s = emptySeries ∧
      calculate_operating_margin s = emptySeries ∧
      calculate_net_margin s = emptySeries ∧
      calculate_roe s = emptySeries ∧
      calculate_roa s = emptySeries) ∧
    (s.balance_sheet.rows = [] →
      calculate_current_ratio s = emptySeries ∧
      calculate_debt_to_equity s = emptySeries ∧
      calculate_roe s = emptySeries ∧
      calculate_roa s = emptySeries) ∧
    (s.cash_flow.rows = [] →
      calculate_free_cash_flow s = emptySeries) := by
  have hg : s.income_stmt.hasRow "Total Revenue" = false →
      calculate_revenue_growth s = emptySeries := by
    intro h
    unfold calculate_revenue_growth calculate_revenue_growthE
    rw [locE_of_hasRow_false _ _ h]
    rfl
  have hgm : s.income_stmt.hasRow "Total Revenue" = false ∨
      s.income_stmt.hasRow "Gross Profit" = false →
      calculate_gross_margin s = emptySeries := fun h =>
    catch_two_lookup_empty _ _ _ _ (fun a b => sScale 100 (sDiv b a)) h
  have hom : s.income_stmt.hasRow "Total Revenue" = false ∨
      s.income_stmt.hasRow "Operating Income" = false →
      calculate_operating_margin s = emptySeries := fun h =>
    catch_two_lookup_empty _ _ _ _ (fun a b => sScale 100 (sDiv b a)) h
  have hnm : s.income_stmt.hasRow "Total Revenue" = false ∨
      s.income_stmt.hasRow "Net Income" = false →
      calculate_net_margin s = emptySeries := fun h =>
    catch_two_lookup_empty _ _ _ _ (fun a b => sScale 100 (sDiv b a)) h
  have hfcf : s.cash_flow.hasRow "Operating Cash Flow" = false ∨
      s.cash_flow.hasRow "Capital Expenditure" = false →
      calculate_free_cash_flow s = emptySeries := fun h =>
    catch_two_lookup_empty _ _ _ _ (fun a b => sAdd a b) h
  have hcr : s.balance_sheet.hasRow "Current Assets" = false ∨
      s.balance_sheet.hasRow "Current Liabilities" = false →
      calculate_current_ratio s = emptySeries := fun h =>
    catch_two_lookup_empty _ _ _ _ (fun a b => sDiv a b) h
  have hdte : s.balance_sheet.hasRow "Total Debt" = false ∨
      s.balance_sheet.hasRow "Stockholders Equity" = false →
      calculate_debt_to_equity s = emptySeries := fun h =>
    catch_two_lookup_empty _ _ _ _ (fun a b => sDiv a b) h
  have hroe : s.income_stmt.hasRow "Net Income" = false ∨
      s.balance_sheet.hasRow "Stockholders Equity" = false →
      calculate_roe s = emptySeries := fun h =>
    catch_two_lookup_empty _ _ _ _ (fun a b => sScale 100 (sDiv a b)) h
  have hroa : s.income_stmt.hasRow "Net Income" = false ∨
      s.balance_sheet.hasRow "Total Assets" = false →
      calculate_roa s = emptySeries := fun h =>
    catch_two_lookup_empty _ _ _ _ (fun a b => sScale 100 (sDiv a b)) h
  refine ⟨hg, hgm, hom, hnm, hfcf, hcr, hdte, hroe, hroa, ?_, ?_, ?_⟩
  · intro h
    exact ⟨hg (hasRow_of_rows_nil _ _ h),
      hgm (Or.inl (hasRow_of_rows_nil _ _ h)),
      hom (Or.inl (hasRow_of_rows_nil _ _ h)),
      hnm (Or.inl (hasRow_of_rows_nil _ _ h)),
      hroe (Or.inl (hasRow_of_rows_nil _ _ h)),
      hroa (Or.inl (hasRow_of_rows_nil _ _ h))⟩
  · intro h
    exact ⟨hcr (Or.inl (hasRow_of_rows_nil _ _ h)),
      hdte (Or.inl (hasRow_of_rows_nil _ _ h)),
      hroe (Or.inr (hasRow_of_rows_nil _ _ h)),
      hroa (Or.inr (hasRow_of_rows_nil _ _ h))⟩
  · intro h
    exact hfcf (Or.inl (hasRow_of_rows_nil _ _ h))

/-- Witness for C3 at the all-empty StatementSet: the representative
metrics from the income, cash-flow and balance-sheet statements all
come back as the empty series. -/
theorem C3_witness :
    calculate_revenue_growth emptyS = emptySeries ∧
    calculate_free_cash_flow emptyS = emptySeries ∧
    calculate_roe emptyS = emptySeries := by
  have h := C3_missing_rows_empty_series emptyS
  exact ⟨h.1 rfl, (h.2.2.2.2.2.2.2.2.2.2.2) rfl, (h.2.2.2.2.2.2.2.1) (Or.inl rfl)⟩

theorem zipWith_add_zip (ps : List Period) (va vb : List Rat)
    (h1 : ps.length = va.length) (h2 : ps.length = vb.length) :
    List.zipWith (fun x y => (x.1, FVal.add x.2 y.2))
      (ps.zip (va.map FVal.num)) (ps.zip (vb.map FVal.num))
      = ps.zip ((List.zipWith (fun a b => a + b) va vb).map FVal.num) := by
  induction ps generalizing va vb with
  | nil => simp
  | cons p pt ih =>
      cases va with
      | nil => simp at h1
      | cons a vat =>
          cases vb with
          | nil => simp at h2
          | cons b vbt =>
              simp only [List.map_cons, List.zip_cons_cons,
                List.zipWith_cons_cons, List.cons.injEq, FVal.add]
              exact ⟨trivial, ih vat vbt (by simpa using h1) (by simpa using h2)⟩

/-- C4: when the cash-flow statement has numeric "Operating Cash Flow"
and "Capital Expenditure" rows over the same stored periods,
calculate_free_cash_flow is their pointwise sum (capital expenditure is
stored negative, so this subtracts the positive spend). -/
theorem C4_free_cash_flow_sum (s : StatementSet) (ps : List Period)
    (va vb : List Rat)
    (ho : s.cash_flow.locE "Operating Cash Flow" =
      Except.ok (ps.zip (va.map FVal.num)))
    (hc : s.cash_flow.locE "Capital Expenditure" =
      Except.ok (ps.zip (vb.map FVal.num)))
    (h1 : ps.length = va.length) (h2 : ps.length = vb.length) :
    calculate_free_cash_flow s =
      ps.zip ((List.zipWith (fun a b => a + b) va vb).map FVal.num) := by
  unfold calculate_free_cash_flow calculate_free_cash_flowE
  rw [ho, hc]
  show sAdd (ps.zip (va.map FVal.num)) (ps.zip (vb.map FVal.num)) = _
  unfold sAdd sBinop
  rw [if_pos (by rw [sIndex_zip_num ps va h1, sIndex_zip_num ps vb h2])]
  exact zipWith_add_zip ps va vb h1 h2

/-- Witness for C4 at demoS: Operating Cash Flow 500 with Capital
Expenditure -120 gives Free Cash Flow 380 (and 450 - 110 gives 340). -/
theorem C4_witness :
    calculate_free_cash_flow demoS =
      [((2023 : Period), FVal.num 380), ((2022 : Period), FVal.num 340)] := by
  have h := C4_free_cash_flow_sum demoS [2023, 2022] [500, 450]
    [-120, -110] rfl rfl rfl rfl
  rw [h]
  norm_num

theorem perm_insDesc (x : Period × MRow) (l : List (Period × MRow)) :
    (insDesc x l).Perm (x :: l) := by
  induction l with
  | nil => exact List.Perm.refl _
  | cons y t ih =>
      unfold insDesc
      by_cases hc : y.1 ≤ x.1
      · rw [if_pos hc]
      · rw [if_neg hc]
        exact (List.Perm.cons y ih).trans (List.Perm.swap x y t)

theorem pairwise_insDesc (x : Period × MRow) (l : List (Period × MRow))
    (h : l.Pairwise (fun a b => b.1 ≤ a.1)) :
    (insDesc x l).Pairwise (fun a b => b.1 ≤ a.1) := by
  induction l with
  | nil => simp [insDesc]
  | cons y t ih =>
      rcases List.pairwise_cons.mp h with ⟨hy, ht⟩
      unfold insDesc
      by_cases hc : y.1 ≤ x.1
      · rw [if_pos hc]
        refine List.pairwise_cons.mpr ⟨?_, h⟩
        intro b hb
        rcases List.mem_cons.mp hb with hb | hb
        · rw [hb]; exact hc
        · exact le_trans (hy b hb) hc
      · rw [if_neg hc]
        refine List.pairwise_cons.mpr ⟨?_, ih ht⟩
        intro b hb
        rcases List.mem_cons.mp ((perm_insDesc x t).mem_iff.mp hb) with hb | hb
        · rw [hb]; exact le_of_lt (not_le.mp hc)
        · exact hy b hb

theorem perm_sortRowsDesc (l : List (Period × MRow)) :
    (sortRowsDesc l).Perm l := by
  induction l with
  | nil => exact List.Perm.refl _
  | cons x t ih => exact (perm_insDesc x (sortRowsDesc t)).trans (List.Perm.cons x ih)

theorem pairwise_sortRowsDesc (l : List (Period × MRow)) :
    (sortRowsDesc l).Pairwise (fun a b => b.1 ≤ a.1) := by
  induction l with
  | nil => simp [sortRowsDesc]
  | cons x t ih => exact pairwise_insDesc x (sortRowsDesc t) ih

theorem mem_foldl_union (ss : List Series) (acc : List Period) (p : Period) :
    (p ∈ ss.foldl
      (fun acc m => acc ++ (sIndex m).filter (fun q => decide (q ∉ acc))) acc) ↔
      p ∈ acc ∨ ∃ m ∈ ss, p ∈ sIndex m := by
  induction ss generalizing acc with
  | nil => simp
  | cons m t ih =>
      rw [List.foldl_cons, ih]
      constructor
      · rintro (h | ⟨m2, hm2, hp⟩)
        · rcases List.mem_append.mp h with h | h
          · exact Or.inl h
          · exact Or.inr ⟨m, by simp, (List.mem_filter.mp h).1⟩
        · exact Or.inr ⟨m2, List.mem_cons_of_mem _ hm2, hp⟩
      · rintro (h | ⟨m2, hm2, hp⟩)
        · exact Or.inl (List.mem_append_left _ h)
        · rcases List.mem_cons.mp hm2 with rfl | hm2
          · by_cases hacc : p ∈ acc
            · exact Or.inl (List.mem_append_left _ hacc)
            · exact Or.inl (List.mem_append_right _
                (List.mem_filter.mpr ⟨hp, by simpa using hacc⟩))
          · exact Or.inr ⟨m2, hm2, hp⟩

theorem mem_dfIndexUnion (ss : List Series) (p : Period) :
    p ∈ dfIndexUnion ss ↔ ∃ m ∈ ss, p ∈ sIndex m := by
  unfold dfIndexUnion
  rw [mem_foldl_union]
  simp

theorem nodup_foldl_union (ss : List Series) (acc : List Period)
    (hacc : acc.Nodup) (h : ∀ m ∈ ss, (sIndex m).Nodup) :
    (ss.foldl
      (fun acc m => acc ++ (sIndex m).filter (fun q => decide (q ∉ acc))) acc).Nodup := by
  induction ss generalizing acc with
  | nil => simpa
  | cons m t ih =>
      rw [List.foldl_cons]
      apply ih
      · refine List.Nodup.append hacc (((h m (by simp)).filter _)) ?_
        intro a ha1 ha2
        rw [List.mem_filter] at ha2
        exact absurd ha1 (by simpa using ha2.2)
      · intro m2 hm2
        exact h m2 (List.mem_cons_of_mem _ hm2)

theorem nodup_dfIndexUnion (ss : List Series)
    (h : ∀ m ∈ ss, (sIndex m).Nodup) : (dfIndexUnion ss).Nodup :=
  nodup_foldl_union ss [] List.nodup_nil h

theorem buildTable_map_fst (ss : List Series) :
    (buildTable ss).map Prod.fst = dfIndexUnion ss := by
  unfold buildTable
  rw [List.map_map]
  have hcomp : (Prod.fst ∘ fun p : Period => (p, tableCells ss p)) = fun p => p := rfl
  rw [hcomp, List.map_id']

theorem mem_buildTable (ss : List Series) (p : Period) (r : MRow) :
    (p, r) ∈ buildTable ss ↔
      p ∈ dfIndexUnion ss ∧ r = tableCells ss p := by
  unfold buildTable
  rw [List.mem_map]
  constructor
  · rintro ⟨q, hq, heq⟩
    cases heq
    exact ⟨hq, rfl⟩
  · rintro ⟨hp, rfl⟩
    exact ⟨p, hp, rfl⟩

/-- C5: calculate_all_metrics assembles the nine metric series into one
table by outer join on fiscal period: a period appears as a row exactly
when at least one metric series contains it; each row carries, for
every one of the nine metrics, that metric's value at the period or NaN
when the metric lacks it; and the rows are ordered most-recent-period
first (weakly descending labels always, strictly descending without
duplicates when each series' own index is duplicate-free, as statement
columns are). -/
theorem C5_all_metrics_outer_join (s : StatementSet)
    (hnd : ∀ m ∈ allSeries s, (sIndex m).Nodup) :
    (∀ p : Period, (∃ r, (p, r) ∈ calculate_all_metrics s) ↔
      ∃ m ∈ allSeries s, p ∈ sIndex m) ∧
    (∀ (p : Period) (r : MRow), (p, r) ∈ calculate_all_metrics s →
      r = (allSeries s).map (fun m => (sLookup m p).getD FVal.nan) ∧
      r.length = metricNames.length) ∧
    ((calculate_all_metrics s).map Prod.fst).Pairwise (fun a b => b ≤ a) ∧
    ((calculate_all_metrics s).map Prod.fst).Nodup := by
  have hperm := perm_sortRowsDesc (buildTable (allSeries s))
  refine ⟨?_, ?_, ?_, ?_⟩
  · intro p
    constructor
    · rintro ⟨r, hr⟩
      have hb := hperm.mem_iff.mp hr
      exact (mem_dfIndexUnion (allSeries s) p).mp
        ((mem_buildTable (allSeries s) p r).mp hb).1
    · intro hex
      refine ⟨tableCells (allSeries s) p, ?_⟩
      exact hperm.mem_iff.mpr ((mem_buildTable (allSeries s) p _).mpr
        ⟨(mem_dfIndexUnion (allSeries s) p).mpr hex, rfl⟩)
  · intro p r hr
    have hcell := ((mem_buildTable (allSeries s) p r).mp
      (hperm.mem_iff.mp hr)).2
    refine ⟨hcell, ?_⟩
    rw [hcell]
    rfl
  · exact List.pairwise_map.mpr (pairwise_sortRowsDesc _)
  · have h1 : ((calculate_all_metrics s).map Prod.fst).Perm
        (dfIndexUnion (allSeries s)) := by
      rw [← buildTable_map_fst]
      exact hperm.map Prod.fst
    exact h1.nodup_iff.mpr (nodup_dfIndexUnion _ hnd)

/-- Witness for C5 at demoS: period 2023 appears as a table row, and
the row labels are weakly descending and duplicate-free. -/
theorem C5_witness :
    (∃ r, ((2023 : Period), r) ∈ calculate_all_metrics demoS) ∧
    ((calculate_all_metrics demoS).map Prod.fst).Pairwise (fun a b => b ≤ a) ∧
    ((calculate_all_metrics demoS).map Prod.fst).Nodup := by
  have h := C5_all_metrics_outer_join demoS (by decide)
  refine ⟨(h.1 2023).mpr ⟨calculate_revenue_growth demoS, ?_, ?_⟩, h.2.2.1, h.2.2.2⟩
  · simp [allSeries]
  · decide

/-- A StatementSet whose income statement has only a single-period
"Total Revenue" row (every metric then degrades without arithmetic). -/
def soloS : StatementSet :=
  { income_stmt := { cols := [2023], rows := [("Total Revenue", [.num 100])] },
    balance_sheet := emptyDF, cash_flow := emptyDF }

/-- C6: create_comparison_dataframe contains exactly one row per
company whose MetricsTable is non-empty — that company's most recent
(first) table row tagged with the ticker — and no row at all (no
placeholder) for a company whose MetricsTable is empty. -/
theorem C6_comparison_rows (cs : List (String × StatementSet))
    (hnd : (cs.map Prod.fst).Nodup) :
    (∀ t r, (t, r) ∈ create_comparison_dataframe cs →
      ∃ st, (t, st) ∈ cs ∧
        ∃ p rest, calculate_all_metrics st = (p, r) :: rest) ∧
    (∀ t st, (t, st) ∈ cs → calculate_all_metrics st = [] →
      ∀ r, (t, r) ∉ create_comparison_dataframe cs) ∧
    (∀ t st p r rest, (t, st) ∈ cs →
      calculate_all_metrics st = (p, r) :: rest →
      (t, r) ∈ create_comparison_dataframe cs) := by
  refine ⟨?_, ?_, ?_⟩
  · intro t r hr
    unfold create_comparison_dataframe at hr
    obtain ⟨c, hc, hfc⟩ := List.mem_filterMap.mp hr
    cases hm : calculate_all_metrics c.2 with
    | nil => rw [hm] at hfc; simp at hfc
    | cons hd rest =>
        rw [hm] at hfc
        simp only [Option.some.injEq] at hfc
        have ht : c.1 = t := congrArg Prod.fst hfc
        have hr2 : hd.2 = r := congrArg Prod.snd hfc
        refine ⟨c.2, ?_, hd.1, rest, ?_⟩
        · rw [← ht]
          exact hc
        · rw [← hr2, hm]
  · intro t st hmem hempty r hr
    unfold create_comparison_dataframe at hr
    obtain ⟨c, hc, hfc⟩ := List.mem_filterMap.mp hr
    cases hm : calculate_all_metrics c.2 with
    | nil => rw [hm] at hfc; simp at hfc
    | cons hd rest =>
        rw [hm] at hfc
        simp only [Option.some.injEq] at hfc
        have ht : c.1 = t := congrArg Prod.fst hfc
        have hceq : c = (t, st) :=
          List.inj_on_of_nodup_map hnd hc hmem (by simpa using ht)
        rw [hceq] at hm
        rw [hempty] at hm
        simp at hm
  · intro t st p r rest hmem hm
    unfold create_comparison_dataframe
    refine List.mem_filterMap.mpr ⟨(t, st), hmem, ?_⟩
    simp only
    rw [hm]

/-- Witness for C6: in a two-company portfolio where X has a one-row
MetricsTable and B an empty one, X's most recent row appears tagged
with X and no row for B exists. -/
theorem C6_witness :
    ("X", [FVal.nan, FVal.nan, FVal.nan, FVal.nan, FVal.nan, FVal.nan,
      FVal.nan, FVal.nan, FVal.nan]) ∈
      create_comparison_dataframe [("X", soloS), ("B", emptyS)] ∧
    (∀ r, ("B", r) ∉
      create_comparison_dataframe [("X", soloS), ("B", emptyS)]) := by
  have h := C6_comparison_rows [("X", soloS), ("B", emptyS)] (by decide)
  constructor
  · exact h.2.2 "X" soloS 2023
      [FVal.nan, FVal.nan, FVal.nan, FVal.nan, FVal.nan, FVal.nan,
        FVal.nan, FVal.nan, FVal.nan] [] (by simp) (by decide)
  · intro r
    exact h.2.1 "B" emptyS (by simp) (by decide) r

/-- C7: with an empty balance sheet, Current Ratio, Debt to Equity,
ROE and ROA are all empty series, so every row of calculate_all_metrics
carries NaN in those four columns (positions 5 to 8), while Revenue
Growth and the three margins are computed from the income statement
alone: they coincide with those of a StatementSet holding only the
income statement. -/
theorem C7_empty_balance_sheet (s : StatementSet)
    (hbs : s.balance_sheet.rows = []) :
    calculate_current_ratio s = emptySeries ∧
    calculate_debt_to_equity s = emptySeries ∧
    calculate_roe s = emptySeries ∧
    calculate_roa s = emptySeries ∧
    (∀ (p : Period) (r : MRow), (p, r) ∈ calculate_all_metrics s →
      r[5]? = some FVal.nan ∧ r[6]? = some FVal.nan ∧
      r[7]? = some FVal.nan ∧ r[8]? = some FVal.nan) ∧
    (calculate_revenue_growth s =
       calculate_revenue_growth
         { income_stmt := s.income_stmt, balance_sheet := emptyDF,
           cash_flow := emptyDF } ∧
     calculate_gross_margin s =
       calculate_gross_margin
         { income_stmt := s.income_stmt, balance_sheet := emptyDF,
           cash_flow := emptyDF } ∧
     calculate_operating_margin s =
       calculate_operating_margin
         { income_stmt := s.income_stmt, balance_sheet := emptyDF,
           cash_flow := emptyDF } ∧
     calculate_net_margin s =
       calculate_net_margin
         { income_stmt := s.income_stmt, balance_sheet := emptyDF,
           cash_flow := emptyDF }) := by
  have hf : s.balance_sheet.hasRow "Current Assets" = false :=
    hasRow_of_rows_nil _ _ hbs
  have hcr : calculate_current_ratio s = emptySeries :=
    catch_two_lookup_empty _ _ _ _ (fun a b => sDiv a b) (Or.inl hf)
  have hdte : calculate_debt_to_equity s = emptySeries :=
    catch_two_lookup_empty _ _ _ _ (fun a b => sDiv a b)
      (Or.inl (hasRow_of_rows_nil _ _ hbs))
  have hroe : calculate_roe s = emptySeries :=
    catch_two_lookup_empty _ _ _ _ (fun a b => sScale 100 (sDiv a b))
      (Or.inr (hasRow_of_rows_nil _ _ hbs))
  have hroa : calculate_roa s = emptySeries :=
    catch_two_lookup_empty _ _ _ _ (fun a b => sScale 100 (sDiv a b))
      (Or.inr (hasRow_of_rows_nil _ _ hbs))
  refine ⟨hcr, hdte, hroe, hroa, ?_, rfl, rfl, rfl, rfl⟩
  intro p r hr
  have hperm := perm_sortRowsDesc (buildTable (allSeries s))
  have hcell := ((mem_buildTable (allSeries s) p r).mp
    (hperm.mem_iff.mp hr)).2
  rw [hcell]
  unfold tableCells allSeries
  refine ⟨?_, ?_, ?_, ?_⟩ <;>
    simp [List.getElem?_map, hcr, hdte, hroe, hroa, sLookup, emptySeries]

/-- Witness for C7 at emptyBalS (populated income statement, empty
balance sheet): the balance-sheet metrics are empty while gross margin
agrees with the income-statement-only computation. -/
theorem C7_witness :
    calculate_current_ratio emptyBalS = emptySeries ∧
    calculate_roe emptyBalS = emptySeries ∧
    calculate_gross_margin emptyBalS =
      calculate_gross_margin
        { income_stmt := emptyBalS.income_stmt, balance_sheet := emptyDF,
          cash_flow := emptyDF } := by
  have h := C7_empty_balance_sheet emptyBalS rfl
  exact ⟨h.1, h.2.2.1, h.2.2.2.2.2.2.1⟩

theorem allMetricsE_ok (s : StatementSet) :
    calculate_all_metricsE s = Except.ok (calculate_all_metrics s) := rfl

/-- C8: no failure propagates: with every metric body running under its
try/except handler, calculate_all_metrics always returns an ordinary
table and create_comparison_dataframe an ordinary comparison table (no
exception reaches the caller), and each metric's series depends only on
the statements its body reads, so a failure in one statement cannot
change any other metric's column, nor can one company's data affect
another's row. -/
theorem C8_no_failure_propagation :
    (∀ s, calculate_all_metricsE s = Except.ok (calculate_all_metrics s)) ∧
    (∀ cs, create_comparison_dataframeE cs =
      Except.ok (create_comparison_dataframe cs)) ∧
    (∀ s1 s2 : StatementSet, s1.income_stmt = s2.income_stmt →
      calculate_revenue_growth s1 = calculate_revenue_growth s2 ∧
      calculate_gross_margin s1 = calculate_gross_margin s2 ∧
      calculate_operating_margin s1 = calculate_operating_margin s2 ∧
      calculate_net_margin s1 = calculate_net_margin s2) ∧
    (∀ s1 s2 : StatementSet, s1.balance_sheet = s2.balance_sheet →
      calculate_current_ratio s1 = calculate_current_ratio s2 ∧
      calculate_debt_to_equity s1 = calculate_debt_to_equity s2) ∧
    (∀ s1 s2 : StatementSet, s1.cash_flow = s2.cash_flow →
      calculate_free_cash_flow s1 = calculate_free_cash_flow s2) ∧
    (∀ s1 s2 : StatementSet, s1.income_stmt = s2.income_stmt →
      s1.balance_sheet = s2.balance_sheet →
      calculate_roe s1 = calculate_roe s2 ∧
      calculate_roa s1 = calculate_roa s2) := by
  refine ⟨allMetricsE_ok, ?_, ?_, ?_, ?_, ?_⟩
  · intro cs
    induction cs with
    | nil => rfl
    | cons c t ih =>
        show (do
          let metrics ← calculate_all_metricsE c.2
          if metrics.isEmpty then
            create_comparison_dataframeE t
          else do
            let latest ← iloc0E metrics
            let tail ← create_comparison_dataframeE t
            pure ((c.1, latest.2) :: tail)) =
          Except.ok (create_comparison_dataframe (c :: t))
        rw [allMetricsE_ok]
        cases hm : calculate_all_metrics c.2 with
        | nil =>
            show create_comparison_dataframeE t = _
            rw [ih]
            unfold create_comparison_dataframe
            rw [List.filterMap_cons]
            simp only [hm]
        | cons hd rest =>
            show (do
              let tail ← create_comparison_dataframeE t
              pure ((c.1, hd.2) :: tail) :
                Except String (List (String × MRow))) = _
            rw [ih]
            show Except.ok ((c.1, hd.2) :: create_comparison_dataframe t) = _
            unfold create_comparison_dataframe
            rw [List.filterMap_cons]
            simp only [hm]
  · intro s1 s2 h
    unfold calculate_revenue_growth calculate_revenue_growthE
      calculate_gross_margin calculate_gross_marginE
      calculate_operating_margin calculate_operating_marginE
      calculate_net_margin calculate_net_marginE
    rw [h]
    exact ⟨rfl, rfl, rfl, rfl⟩
  · intro s1 s2 h
    unfold calculate_current_ratio calculate_current_ratioE
      calculate_debt_to_equity calculate_debt_to_equityE
    rw [h]
    exact ⟨rfl, rfl⟩
  · intro s1 s2 h
    unfold calculate_free_cash_flow calculate_free_cash_flowE
    rw [h]
  · intro s1 s2 h1 h2
    unfold calculate_roe calculate_roeE calculate_roa calculate_roaE
    rw [h1, h2]
    exact ⟨rfl, rfl⟩

/-- Witness for C8: the exception-tracking run at demoS returns the
ordinary table, demoS2 (demoS's income statement, empty cash flow)
keeps demoS's gross margin, and demoS2's free cash flow coincides with
that of the all-empty StatementSet (the shared empty cash flow). -/
theorem C8_witness :
    calculate_all_metricsE demoS = Except.ok (calculate_all_metrics demoS) ∧
    calculate_gross_margin demoS = calculate_gross_margin demoS2 ∧
    calculate_free_cash_flow demoS2 = calculate_free_cash_flow emptyS := by
  have h := C8_no_failure_propagation
  exact ⟨h.1 demoS, (h.2.2.1 demoS demoS2 rfl).2.1,
    h.2.2.2.2.1 demoS2 emptyS rfl⟩

/-- C9: the Metrics Engine is deterministic: two invocations of
calculate_all_metrics on the same immutable StatementSet produce
identical MetricsTable output (the computation reads nothing but its
input). -/
theorem C9_deterministic (s1 s2 : StatementSet) (h : s1 = s2) :
    calculate_all_metrics s1 = calculate_all_metrics s2 :=
  congrArg calculate_all_metrics h

/-- Witness for C9: the two runs at demoS agree. -/
theorem C9_witness :
    calculate_all_metrics demoS = calculate_all_metrics demoS :=
  C9_deterministic demoS demoS rfl

end FinDash
